import Mathlib

/-!
Verification development for the PokeAlert restock monitoring bot
(source: `src/bot.py`).  The definitions below are a shallow embedding of
the restock-detection core: the stock-status classifier
(`check_stock_status`, lines 315-400), the per-product state machine of the
monitoring cycle (`monitor_restocks`, lines 984-1078), the notification
dedup gate and fan-out (lines 1030-1064 and `send_restock_notification`,
lines 402-437), and the admin and subscription commands (`set_status`,
`remove_product`, `unsubscribe`).

Conventions of the embedding:
* Firestore timestamps are modelled as `Nat`.  Each `SERVER_TIMESTAMP`
  sentinel is resolved at its own write, so distinct writes receive their
  own timestamp parameter.
* Firestore documents are modelled as association lists keyed by `String`
  with the Firestore field names kept as Lean field names.
* Page markup is abstracted to the observations the classifier extracts
  through BeautifulSoup: the lowered page text, element presence flags and
  element attributes.  Multi-valued attributes are modelled as token lists
  which the code joins with a single space.
* Fallible collaborators (page fetch, HTML parse, Discord delivery) are
  modelled by `Option` layers and an explicit `DeliveryOutcome` oracle.
-/

/-- Stock status values produced by `check_stock_status`
(`"in_stock"`, `"out_of_stock"`, `"unknown"` in the Python source). -/
inductive StockStatus
  | in_stock
  | out_of_stock
  | unknown
deriving DecidableEq, Repr

/-- The `notification_preference` field of a subscription document. -/
inductive NotificationPreference
  | specific_products
  | all_products
deriving DecidableEq, Repr

/-- Mutable monitoring fields of a product document that the restock state
machine reads and writes (`last_stock_status`,
`consecutive_out_of_stock_checks`, `last_restock_time`).  The
`last_checked` bookkeeping timestamp carries no logic and is omitted. -/
structure ProductState where
  last_stock_status : StockStatus
  consecutive_out_of_stock_checks : Nat
  last_restock_time : Option Nat
deriving DecidableEq, Repr

/-- A subscription document (`subscriptions` collection). -/
structure Subscription where
  subscribed_product_ids : List String
  notification_preference : NotificationPreference
  last_notified_timestamps : List (String × Nat)
deriving DecidableEq, Repr

/-- Outcome of one Discord delivery attempt inside
`send_restock_notification`: success, target lookup failure
(`target_entity` is falsy), `discord.Forbidden`, `discord.HTTPException`,
or any other exception.  All failure branches are caught and logged. -/
inductive DeliveryOutcome
  | delivered
  | target_missing
  | permission_denied
  | platform_error
  | other_error
deriving DecidableEq, Repr

/-- Lookup in a `String`-keyed association list (a Firestore map field). -/
def lookupKey {α : Type} : List (String × α) → String → Option α
  | [], _ => none
  | (k, v) :: rest, key => if k = key then some v else lookupKey rest key

/-- Set or overwrite one entry of a `String`-keyed association list.
Models a Firestore dotted-field update such as
`last_notified_timestamps.<pid> = value`. -/
def setKey {α : Type} : List (String × α) → String → α → List (String × α)
  | [], key, v => [(key, v)]
  | (k, w) :: rest, key, v =>
    if k = key then (key, v) :: rest else (k, w) :: setKey rest key v

/-- Delete the entries of a `String`-keyed association list holding a
given key.  Models the Firestore `DELETE_FIELD` sentinel used in
`remove_product`. -/
def removeKey {α : Type} : List (String × α) → String → List (String × α)
  | [], _ => []
  | (k, v) :: rest, key =>
    if k = key then removeKey rest key else (k, v) :: removeKey rest key

/-- Boolean substring containment on character lists:
`hasSubList hay needle` mirrors the Python expression `needle in hay`. -/
def hasSubList : List Char → List Char → Bool
  | hay, needle =>
    match hay with
    | [] => needle.isEmpty
    | _ :: rest => needle.isPrefixOf hay || hasSubList rest needle

/-- `containsSub hay needle` mirrors the Python substring test
`needle in hay` on strings. -/
def containsSub (hay needle : String) : Bool :=
  hasSubList hay.toList needle.toList

/-- ASCII lowercasing, mirroring the Python `str.lower()` calls of the
classifier. -/
def lowerStr (s : String) : String :=
  ⟨s.data.map Char.toLower⟩

/-- Characters removed by the Python `str.strip()` call on button text. -/
def isStripChar (c : Char) : Bool :=
  c == ' ' || c == '\t' || c == '\n' || c == '\r'

/-- Leading and trailing whitespace removal, mirroring `str.strip()`. -/
def stripStr (s : String) : String :=
  ⟨((s.data.dropWhile isStripChar).reverse.dropWhile isStripChar).reverse⟩

/-- Space-joining of attribute token lists, mirroring the Python string
join with a one-space separator. -/
def joinSpace : List String → String
  | [] => ""
  | [s] => s
  | s :: rest => s ++ " " ++ joinSpace rest

/-! ## Stock classifier (`check_stock_status`, `src/bot.py` lines 315-400) -/

/-- Observations the Target branch of the classifier extracts from the
parsed page: `page_text` is `soup.get_text()`,
`add_to_cart_button_texts` are the `get_text()` values of the elements
matched by the add-to-cart button selector, and the two flags record
whether the price and fulfillment selectors matched any element. -/
structure TargetPage where
  page_text : String
  add_to_cart_button_texts : List String
  has_price_element : Bool
  has_fulfillment_element : Bool
deriving DecidableEq, Repr

/-- The fixed list of negative phrases checked first by the Target branch
(`out_of_stock_indicators` in the source). -/
def out_of_stock_indicators : List String :=
  ["sold out", "out of stock", "currently unavailable",
   "temporarily out of stock", "not available"]

/-- Negative short-circuit of the Target branch: some negative phrase
occurs anywhere in the lowered page text. -/
def target_negative (page : TargetPage) : Bool :=
  out_of_stock_indicators.any (fun s => containsSub (lowerStr page.page_text) s)

/-- Check 1 of the Target branch: the literal text `"add to cart"` occurs
in the lowered page text. -/
def target_check1 (page : TargetPage) : Bool :=
  containsSub (lowerStr page.page_text) "add to cart"

/-- Check 2 of the Target branch: some matched button element whose
stripped, lowered text contains both `"add"` and `"cart"`.  The source
loop breaks after the first hit, so this check contributes at most 1. -/
def target_check2 (page : TargetPage) : Bool :=
  page.add_to_cart_button_texts.any (fun t =>
    containsSub (lowerStr (stripStr t)) "add" && containsSub (lowerStr (stripStr t)) "cart")

/-- Check 3 of the Target branch: a price element is present. -/
def target_check3 (page : TargetPage) : Bool :=
  page.has_price_element

/-- Check 4 of the Target branch: a fulfillment or shipping-options
element is present. -/
def target_check4 (page : TargetPage) : Bool :=
  page.has_fulfillment_element

/-- The `in_stock_indicators` running count of the Target branch: four
independent positive indicators, each contributing at most 1. -/
def target_score (page : TargetPage) : Nat :=
  (if target_check1 page then 1 else 0)
  + (if target_check2 page then 1 else 0)
  + (if target_check3 page then 1 else 0)
  + (if target_check4 page then 1 else 0)

/-- The Target (scored-heuristic) branch of `check_stock_status`
(lines 325-378): negative phrases short-circuit to `out_of_stock`;
otherwise at least two positive indicators give `in_stock`, zero gives
`out_of_stock`, and exactly one also gives `out_of_stock`. -/
def check_target (page : TargetPage) : StockStatus :=
  if target_negative page then .out_of_stock
  else if 2 ≤ target_score page then .in_stock
  else if target_score page == 0 then .out_of_stock
  else .out_of_stock

/-- The single element matched by `rule.selector` in the generic branch:
`text` is `element.get_text(strip=True)` and `attrs` is `element.attrs`
with attribute values as token lists, joined with one space by the code. -/
structure GenericElement where
  text : String
  attrs : List (String × List String)
deriving DecidableEq, Repr

/-- The fixed attribute names inspected by the generic branch. -/
def generic_attr_names : List String :=
  ["class", "data-stock", "data-status"]

/-- The generic branch of `check_stock_status` (lines 380-396): absent
element gives `unknown`; otherwise `in_stock` when the lowered expected
text occurs in the lowered element text or in the lowered space-joined
value of one of the fixed attributes, else `out_of_stock`. -/
def check_generic (expected_in_stock_text : String)
    (element : Option GenericElement) : StockStatus :=
  match element with
  | none => .unknown
  | some el =>
    if containsSub (lowerStr el.text) (lowerStr expected_in_stock_text) then
      .in_stock
    else if generic_attr_names.any (fun a =>
        match lookupKey el.attrs a with
        | some vs =>
          containsSub (lowerStr (joinSpace vs))
            (lowerStr expected_in_stock_text)
        | none => false) then
      .in_stock
    else .out_of_stock

/-- The product configuration fields the classifier dispatches on. -/
structure Product where
  store_name : String
  expected_in_stock_text : String
deriving DecidableEq, Repr

/-- Everything the classifier can observe about one fetched page: the
same markup viewed through the Target heuristics and through the generic
selector rule. -/
structure PageObservations where
  target_view : TargetPage
  generic_element : Option GenericElement
deriving DecidableEq, Repr

/-- `check_stock_status` (lines 315-400).  The outer `Option` layer is
the fetch result: `none` models `fetch_website_content` returning `None`
or empty content (both fail the `if content:` guard).  The inner `Option`
layer models the `try`/`except` around parsing and classification: `none`
is an exception caught and converted to `"unknown"`.  The store dispatch
compares the lowered store name with `"target"`. -/
def check_stock_status (product : Product)
    (content : Option (Option PageObservations)) : StockStatus :=
  match content with
  | none => .unknown
  | some none => .unknown
  | some (some obs) =>
    if lowerStr product.store_name == "target" then
      check_target obs.target_view
    else
      check_generic product.expected_in_stock_text obs.generic_element

/-! ## Restock state machine (`monitor_restocks`, `src/bot.py` lines 1000-1028) -/

/-- The restock trigger of line 1026: current status `in_stock`, previous
persisted status `out_of_stock`, and the consecutive out-of-stock counter
value read before this cycle updates it at least 2. -/
def restock_fired (prev cur : StockStatus) (cnt : Nat) : Bool :=
  cur == .in_stock && prev == .out_of_stock && decide (2 ≤ cnt)

/-- One per-product pass of the state-machine part of the monitoring
cycle (lines 1004-1028): always persist the fresh status; increment the
counter on `out_of_stock`, reset it on `in_stock`, leave the field
untouched on `unknown`; on a fired restock set `last_restock_time` to the
server timestamp `now` of this cycle write.  The returned `Bool` is
whether the restock trigger fired. -/
def monitor_step (p : ProductState) (cur : StockStatus) (now : Nat) :
    ProductState × Bool :=
  ({ last_stock_status := cur,
     consecutive_out_of_stock_checks :=
       match cur with
       | .out_of_stock => p.consecutive_out_of_stock_checks + 1
       | .in_stock => 0
       | .unknown => p.consecutive_out_of_stock_checks,
     last_restock_time :=
       if restock_fired p.last_stock_status cur
            p.consecutive_out_of_stock_checks then some now
       else p.last_restock_time },
   restock_fired p.last_stock_status cur p.consecutive_out_of_stock_checks)

/-- Monitoring state of a freshly added product (`add_product`):
status `unknown`, no restock timestamp, and no
`consecutive_out_of_stock_checks` field, which the cycle reads as 0. -/
def initial_product_state : ProductState :=
  { last_stock_status := .unknown,
    consecutive_out_of_stock_checks := 0,
    last_restock_time := none }

/-- Run the state machine over a list of classified statuses and report
whether any step fired.  The timestamp does not influence firing, so the
cycle write time is fixed at 0. -/
def run_statuses : ProductState → List StockStatus → ProductState × Bool
  | p, [] => (p, false)
  | p, cur :: rest =>
    let step := monitor_step p cur 0
    let r := run_statuses step.1 rest
    (r.1, step.2 || r.2)

/-! ## Dedup gate, resolver and fan-out (lines 1030-1064, 402-437) -/

/-- The dedup gate of lines 1054-1055: notify when the subscriber has no
recorded timestamp for the product, or when the product document carries
a non-null `last_restock_time` strictly newer than the recorded
timestamp.  The second argument is `product_data['last_restock_time']` as
read at the start of the cycle, before this cycle writes are persisted. -/
def should_notify (lnt : Option Nat) (lrt : Option Nat) : Bool :=
  match lnt with
  | none => true
  | some t =>
    match lrt with
    | none => false
    | some r => decide (t < r)

/-- `send_restock_notification` (lines 402-437) restricted to its state
effect: on confirmed delivery, set the subscriber entry
`last_notified_timestamps.<pid>` to the server timestamp of that very
update (`deliveredAt`); on any failure leave the subscription untouched.
The returned `Bool` reports confirmed delivery. -/
def send_restock_notification (pid : String) (deliveredAt : Nat)
    (outcome : DeliveryOutcome) (sub : Subscription) : Subscription × Bool :=
  match outcome with
  | .delivered =>
    ({ sub with
        last_notified_timestamps :=
          setKey sub.last_notified_timestamps pid deliveredAt }, true)
  | _ => (sub, false)

/-- Subscriber resolution of lines 1030-1044: subscriptions whose
`subscribed_product_ids` contains the product id, united with
subscriptions whose preference is `all_products`, deduplicated. -/
def resolve_subscribers (subs : List (String × Subscription))
    (pid : String) : List String :=
  (((subs.filter (fun e => decide (pid ∈ e.2.subscribed_product_ids))).map
      Prod.fst)
    ++ ((subs.filter (fun e =>
          decide (e.2.notification_preference = .all_products))).map
        Prod.fst)).dedup

/-- Accumulator of the fan-out loop of lines 1046-1064: the current
subscription documents, the subscribers for whom the gate passed and a
delivery was attempted, and those with confirmed delivery. -/
structure FanoutAcc where
  subs : List (String × Subscription)
  attempted : List String
  notified : List String
deriving DecidableEq, Repr

/-- One iteration of the fan-out loop: re-read the subscription document
(a missing document is skipped with a warning), evaluate the dedup gate
against the pre-cycle `last_restock_time`, and on a pass attempt the
delivery with this subscriber delivery outcome and write timestamp. -/
def process_subscriber (pid : String) (lrt : Option Nat)
    (deliver : String → DeliveryOutcome) (dtime : String → Nat)
    (acc : FanoutAcc) (sid : String) : FanoutAcc :=
  match lookupKey acc.subs sid with
  | none => acc
  | some sub =>
    if should_notify (lookupKey sub.last_notified_timestamps pid) lrt then
      let r := send_restock_notification pid (dtime sid) (deliver sid) sub
      { subs := setKey acc.subs sid r.1,
        attempted := acc.attempted ++ [sid],
        notified := if r.2 then acc.notified ++ [sid] else acc.notified }
    else acc

/-- The whole fan-out loop over the resolved subscriber ids. -/
def fanout (pid : String) (lrt : Option Nat)
    (deliver : String → DeliveryOutcome) (dtime : String → Nat)
    (acc : FanoutAcc) (l : List String) : FanoutAcc :=
  l.foldl (process_subscriber pid lrt deliver dtime) acc

/-- Result of one per-product monitoring cycle pass: the persisted
product fields, the subscription documents after the fan-out, the
resolved subscriber ids, the attempted and confirmed deliveries, and
whether the restock trigger fired. -/
structure CycleResult where
  product : ProductState
  subs : List (String × Subscription)
  resolved : List String
  attempted : List String
  notified : List String
  fired : Bool
deriving DecidableEq, Repr

/-- One full per-product pass of `monitor_restocks` (lines 1000-1073):
classify (the classified status `cur` is an input here), run the state
machine, and when the restock trigger fires resolve the subscribers and
fan the event out through the dedup gate, which compares against the
product `last_restock_time` read before this cycle updates it.  The
product fields are persisted at the end of the pass in both cases. -/
def monitor_product_cycle (p : ProductState) (pid : String)
    (cur : StockStatus) (now : Nat) (subs : List (String × Subscription))
    (deliver : String → DeliveryOutcome) (dtime : String → Nat) :
    CycleResult :=
  let step := monitor_step p cur now
  if step.2 then
    let resolved := resolve_subscribers subs pid
    let fan := fanout pid p.last_restock_time deliver dtime ⟨subs, [], []⟩
      resolved
    { product := step.1, subs := fan.subs, resolved := resolved,
      attempted := fan.attempted, notified := fan.notified, fired := true }
  else
    { product := step.1, subs := subs, resolved := [], attempted := [],
      notified := [], fired := false }

/-- Whether a subscriber passes the dedup gate when evaluated against a
given snapshot of the subscription documents.  A missing document never
passes (the loop skips it). -/
def gate_pass (subs : List (String × Subscription)) (pid : String)
    (lrt : Option Nat) (sid : String) : Bool :=
  match lookupKey subs sid with
  | none => false
  | some sub => should_notify (lookupKey sub.last_notified_timestamps pid) lrt

/-! ## Admin and subscription commands -/

/-- `set_status` (lines 775-803): the manual override writes only
`last_checked` and `last_stock_status`; the counter and the restock
timestamp are left untouched for every status value. -/
def set_status (p : ProductState) (status : StockStatus) : ProductState :=
  { p with last_stock_status := status }

/-- `unsubscribe` with no product argument (lines 517-521): empty the
subscribed list and set the preference to `specific_products`. -/
def unsubscribe_all (sub : Subscription) : Subscription :=
  { sub with
      subscribed_product_ids := [],
      notification_preference := .specific_products }

/-- `unsubscribe` with a resolved product id (lines 539-545): remove the
first occurrence of the id from the subscribed list; the preference
becomes `specific_products` when the remaining list is non-empty and
`all_products` when it is empty.  A subscriber not holding the id is told
so and left unchanged. -/
def unsubscribe_product (sub : Subscription) (pid : String) : Subscription :=
  if pid ∈ sub.subscribed_product_ids then
    let updated := sub.subscribed_product_ids.erase pid
    { sub with
        subscribed_product_ids := updated,
        notification_preference :=
          if updated.isEmpty then .all_products else .specific_products }
  else sub

/-- Effect of `remove_product` (lines 673-694) on one subscription
document that the `array_contains` query matched, so only documents whose
`subscribed_product_ids` holds the removed id are rewritten: every
occurrence of the id is filtered out of the list, the preference becomes
`all_products` exactly when the list becomes empty, and the
`last_notified_timestamps` entry for the id is deleted when present. -/
def remove_product_from_subscription (pid : String) (sub : Subscription) :
    Subscription :=
  if pid ∈ sub.subscribed_product_ids then
    let updated := sub.subscribed_product_ids.filter (fun x => x != pid)
    { subscribed_product_ids := updated,
      notification_preference :=
        if updated.isEmpty then .all_products else .specific_products,
      last_notified_timestamps :=
        if (lookupKey sub.last_notified_timestamps pid).isSome then
          removeKey sub.last_notified_timestamps pid
        else sub.last_notified_timestamps }
  else sub

/-- `remove_product` over the whole `subscriptions` collection. -/
def remove_product (subs : List (String × Subscription)) (pid : String) :
    List (String × Subscription) :=
  subs.map (fun e => (e.1, remove_product_from_subscription pid e.2))

/-! ## Association-list lemmas -/

theorem lookupKey_setKey_self {α : Type} (m : List (String × α))
    (k : String) (v : α) : lookupKey (setKey m k v) k = some v := by
  induction m with
  | nil => simp [setKey, lookupKey]
  | cons hd tl ih =>
    by_cases h : hd.1 = k
    · simp [setKey, h, lookupKey]
    · simp [setKey, h, lookupKey, ih]

theorem lookupKey_setKey_ne {α : Type} (m : List (String × α))
    (k t : String) (v : α) (h : t ≠ k) :
    lookupKey (setKey m k v) t = lookupKey m t := by
  have hkt : ¬ k = t := Ne.symm h
  induction m with
  | nil => simp [setKey, lookupKey, hkt]
  | cons hd tl ih =>
    obtain ⟨a, b⟩ := hd
    by_cases hk : a = k
    · have hat : ¬ a = t := by rw [hk]; exact hkt
      simp [setKey, hk, lookupKey, hkt, hat]
    · simp [setKey, hk, lookupKey, ih]

theorem setKey_self {α : Type} (m : List (String × α)) (k : String)
    (v : α) (h : lookupKey m k = some v) : setKey m k v = m := by
  induction m with
  | nil => simp [lookupKey] at h
  | cons hd tl ih =>
    obtain ⟨a, b⟩ := hd
    by_cases hk : a = k
    · simp only [lookupKey, hk, if_pos rfl] at h
      have hv : b = v := by injection h
      simp [setKey, hk, hv]
    · simp only [lookupKey, if_neg hk] at h
      simp [setKey, hk, ih h]

theorem lookupKey_removeKey_self {α : Type} (m : List (String × α))
    (k : String) : lookupKey (removeKey m k) k = none := by
  induction m with
  | nil => simp [removeKey, lookupKey]
  | cons hd tl ih =>
    obtain ⟨a, b⟩ := hd
    by_cases hk : a = k
    · simpa [removeKey, hk] using ih
    · simpa [removeKey, hk, lookupKey] using ih

theorem lookupKey_removeKey_ne {α : Type} (m : List (String × α))
    (k t : String) (h : t ≠ k) :
    lookupKey (removeKey m k) t = lookupKey m t := by
  induction m with
  | nil => simp [removeKey, lookupKey]
  | cons hd tl ih =>
    obtain ⟨a, b⟩ := hd
    by_cases hk : a = k
    · have hkt : ¬ k = t := Ne.symm h
      simpa [removeKey, hk, lookupKey, hkt] using ih
    · by_cases ht : a = t
      · simp [removeKey, hk, lookupKey, ht, h]
      · simpa [removeKey, hk, lookupKey, ht] using ih

/-! ## Fan-out lemmas -/

theorem process_subscriber_lookup_ne (pid : String) (lrt : Option Nat)
    (deliver : String → DeliveryOutcome) (dtime : String → Nat)
    (acc : FanoutAcc) (sid tid : String) (h : tid ≠ sid) :
    lookupKey (process_subscriber pid lrt deliver dtime acc sid).subs tid
      = lookupKey acc.subs tid := by
  unfold process_subscriber
  cases hl : lookupKey acc.subs sid with
  | none => rfl
  | some sub =>
    by_cases hg :
        should_notify (lookupKey sub.last_notified_timestamps pid) lrt = true
    · simp only [hg, if_true]
      exact lookupKey_setKey_ne acc.subs sid tid _ h
    · simp [hg]

theorem fanout_attempted_eq (pid : String) (lrt : Option Nat)
    (deliver : String → DeliveryOutcome) (dtime : String → Nat)
    (subs0 : List (String × Subscription)) (l : List String) :
    ∀ acc : FanoutAcc, l.Nodup →
      (∀ sid ∈ l, lookupKey acc.subs sid = lookupKey subs0 sid) →
      (fanout pid lrt deliver dtime acc l).attempted
        = acc.attempted ++ l.filter (gate_pass subs0 pid lrt) := by
  induction l with
  | nil => intro acc _ _; simp [fanout]
  | cons a rest ih =>
    intro acc hnd hlk
    have ha : lookupKey acc.subs a = lookupKey subs0 a :=
      hlk a (List.mem_cons_self a rest)
    have hnd' : rest.Nodup := (List.nodup_cons.mp hnd).2
    have hamem : a ∉ rest := (List.nodup_cons.mp hnd).1
    have hfold : fanout pid lrt deliver dtime acc (a :: rest)
        = fanout pid lrt deliver dtime
            (process_subscriber pid lrt deliver dtime acc a) rest := rfl
    rw [hfold]
    have hgp : gate_pass subs0 pid lrt a
        = (match lookupKey acc.subs a with
           | none => false
           | some sub =>
             should_notify (lookupKey sub.last_notified_timestamps pid) lrt) := by
      unfold gate_pass; rw [ha]
    cases hl : lookupKey acc.subs a with
    | none =>
      have hproc : process_subscriber pid lrt deliver dtime acc a = acc := by
        unfold process_subscriber; rw [hl]
      have hg : gate_pass subs0 pid lrt a = false := by rw [hgp, hl]
      rw [hproc, ih acc hnd' (fun sid hs => hlk sid (List.mem_cons_of_mem a hs))]
      simp [hg]
    | some sub =>
      by_cases hgate :
          should_notify (lookupKey sub.last_notified_timestamps pid) lrt = true
      · have hproc : process_subscriber pid lrt deliver dtime acc a
            = { subs := setKey acc.subs a
                  (send_restock_notification pid (dtime a) (deliver a) sub).1,
                attempted := acc.attempted ++ [a],
                notified :=
                  if (send_restock_notification pid (dtime a) (deliver a) sub).2
                  then acc.notified ++ [a] else acc.notified } := by
          unfold process_subscriber; rw [hl]; simp [hgate]
        have hg : gate_pass subs0 pid lrt a = true := by rw [hgp, hl]; exact hgate
        have hlk' : ∀ sid ∈ rest,
            lookupKey (process_subscriber pid lrt deliver dtime acc a).subs sid
              = lookupKey subs0 sid := by
          intro sid hs
          have hne : sid ≠ a := fun hh => hamem (hh ▸ hs)
          rw [process_subscriber_lookup_ne pid lrt deliver dtime acc a sid hne]
          exact hlk sid (List.mem_cons_of_mem a hs)
        rw [ih _ hnd' hlk', hproc]
        simp [hg, List.filter_cons]
      · have hproc : process_subscriber pid lrt deliver dtime acc a = acc := by
          unfold process_subscriber; rw [hl]; simp [hgate]
        have hg : gate_pass subs0 pid lrt a = false := by
          rw [hgp, hl]; simpa using hgate
        rw [hproc, ih acc hnd' (fun sid hs => hlk sid (List.mem_cons_of_mem a hs))]
        simp [hg]

theorem monitor_cycle_attempted (p : ProductState) (pid : String)
    (cur : StockStatus) (now : Nat) (subs : List (String × Subscription))
    (deliver : String → DeliveryOutcome) (dtime : String → Nat) :
    (monitor_product_cycle p pid cur now subs deliver dtime).attempted
      = (monitor_product_cycle p pid cur now subs deliver dtime).resolved.filter
          (gate_pass subs pid p.last_restock_time) := by
  unfold monitor_product_cycle
  by_cases hf : (monitor_step p cur now).2 = true
  · simp only [hf, if_true]
    exact fanout_attempted_eq pid p.last_restock_time deliver dtime subs
      (resolve_subscribers subs pid) ⟨subs, [], []⟩
      (List.nodup_dedup _) (fun _ _ => rfl)
  · simp [hf]

theorem monitor_cycle_resolved (p : ProductState) (pid : String)
    (cur : StockStatus) (now : Nat) (subs : List (String × Subscription))
    (deliver : String → DeliveryOutcome) (dtime : String → Nat) :
    (monitor_product_cycle p pid cur now subs deliver dtime).resolved
      = if (monitor_step p cur now).2 then resolve_subscribers subs pid
        else [] := by
  unfold monitor_product_cycle
  by_cases hf : (monitor_step p cur now).2 = true <;> simp [hf]

theorem monitor_cycle_product_eq (p : ProductState) (pid : String)
    (cur : StockStatus) (now : Nat) (subs : List (String × Subscription))
    (deliver : String → DeliveryOutcome) (dtime : String → Nat) :
    (monitor_product_cycle p pid cur now subs deliver dtime).product
      = (monitor_step p cur now).1 := by
  unfold monitor_product_cycle
  by_cases hf : (monitor_step p cur now).2 = true <;> simp [hf]

theorem mem_resolve_subscribers (subs : List (String × Subscription))
    (pid sid : String) :
    sid ∈ resolve_subscribers subs pid ↔
      ∃ sub : Subscription, (sid, sub) ∈ subs ∧
        (pid ∈ sub.subscribed_product_ids
          ∨ sub.notification_preference = .all_products) := by
  unfold resolve_subscribers
  rw [List.mem_dedup, List.mem_append]
  constructor
  · intro h
    cases h with
    | inl h =>
      obtain ⟨e, he, heq⟩ := List.mem_map.mp h
      have := List.mem_filter.mp he
      exact ⟨e.2, by rw [← heq]; exact this.1, Or.inl (by
        have := this.2; simpa using this)⟩
    | inr h =>
      obtain ⟨e, he, heq⟩ := List.mem_map.mp h
      have := List.mem_filter.mp he
      exact ⟨e.2, by rw [← heq]; exact this.1, Or.inr (by
        have := this.2; simpa using this)⟩
  · intro ⟨sub, hmem, hcond⟩
    cases hcond with
    | inl h =>
      exact Or.inl (List.mem_map.mpr ⟨(sid, sub),
        List.mem_filter.mpr ⟨hmem, by simpa using h⟩, rfl⟩)
    | inr h =>
      exact Or.inr (List.mem_map.mpr ⟨(sid, sub),
        List.mem_filter.mpr ⟨hmem, by simpa using h⟩, rfl⟩)

/-! ## Claim theorems -/

/-- Claim C1: for every product evaluated in a monitoring cycle, a restock
event fires (and the restock timestamp is set to the write time of this
cycle) exactly when the fresh status is `in_stock`, the previously
persisted status is `out_of_stock`, and the counter value read before
this cycle update is at least 2; the classification sequence
out-of-stock, out-of-stock, in-stock fires, the sequence out-of-stock,
in-stock does not, and a prior status of `unknown` never fires for any
counter value. -/
theorem claim1_restock_fire_condition :
    (∀ (p : ProductState) (cur : StockStatus) (now : Nat),
      (monitor_step p cur now).2 = true ↔
        (cur = .in_stock ∧ p.last_stock_status = .out_of_stock
          ∧ 2 ≤ p.consecutive_out_of_stock_checks))
    ∧ (∀ (p : ProductState) (cur : StockStatus) (now : Nat),
        (monitor_step p cur now).2 = true →
        (monitor_step p cur now).1.last_restock_time = some now)
    ∧ (run_statuses initial_product_state
        [.out_of_stock, .out_of_stock, .in_stock]).2 = true
    ∧ (run_statuses initial_product_state [.out_of_stock, .in_stock]).2 = false
    ∧ (∀ (p : ProductState) (cur : StockStatus) (now : Nat),
        p.last_stock_status = .unknown →
        (monitor_step p cur now).2 = false) := by
  refine ⟨?_, ?_, by decide, by decide, ?_⟩
  · intro p cur now
    simp [monitor_step, restock_fired, Bool.and_eq_true, beq_iff_eq,
      decide_eq_true_eq, and_assoc]
  · intro p cur now h
    have h' : restock_fired p.last_stock_status cur
        p.consecutive_out_of_stock_checks = true := h
    simp [monitor_step, h']
  · intro p cur now h
    simp [monitor_step, restock_fired, h]

/-- Concrete instantiation of `claim1_restock_fire_condition`: a prior
status of `unknown` does not fire even with counter 7. -/
theorem claim1_restock_fire_condition_witness :
    (monitor_step ⟨.unknown, 7, none⟩ .in_stock 3).2 = false :=
  claim1_restock_fire_condition.2.2.2.2 ⟨.unknown, 7, none⟩ .in_stock 3 rfl

/-- Claim C4 (amended): the monitoring cycle maintains the counter rule
(increment on `out_of_stock`, reset on `in_stock`, unchanged on
`unknown`, hence non-decreasing while the status is not `in_stock`), but
the manual override `set_status` writes only the status and leaves the
counter unchanged for every status value, so the override does not reset
the counter when the status becomes `in_stock`. -/
theorem claim4_counter_invariant_amended :
    (∀ (p : ProductState) (now : Nat),
      (monitor_step p .out_of_stock now).1.consecutive_out_of_stock_checks
        = p.consecutive_out_of_stock_checks + 1)
    ∧ (∀ (p : ProductState) (now : Nat),
        (monitor_step p .in_stock now).1.consecutive_out_of_stock_checks = 0)
    ∧ (∀ (p : ProductState) (now : Nat),
        (monitor_step p .unknown now).1.consecutive_out_of_stock_checks
          = p.consecutive_out_of_stock_checks)
    ∧ (∀ (p : ProductState) (cur : StockStatus) (now : Nat),
        cur ≠ .in_stock →
        p.consecutive_out_of_stock_checks
          ≤ (monitor_step p cur now).1.consecutive_out_of_stock_checks)
    ∧ (∀ (p : ProductState) (s : StockStatus),
        (set_status p s).last_stock_status = s
        ∧ (set_status p s).consecutive_out_of_stock_checks
            = p.consecutive_out_of_stock_checks) := by
  refine ⟨fun p now => rfl, fun p now => rfl, fun p now => rfl, ?_,
    fun p s => ⟨rfl, rfl⟩⟩
  intro p cur now h
  cases cur with
  | in_stock => exact absurd rfl h
  | out_of_stock => simp [monitor_step]
  | unknown => simp [monitor_step]

/-- Concrete instantiation of `claim4_counter_invariant_amended`: an
out-of-stock tick does not decrease the counter. -/
theorem claim4_counter_invariant_amended_witness :
    (3 : Nat) ≤ (monitor_step ⟨.out_of_stock, 3, none⟩ .out_of_stock
      0).1.consecutive_out_of_stock_checks :=
  claim4_counter_invariant_amended.2.2.2.1 ⟨.out_of_stock, 3, none⟩
    .out_of_stock 0 (by decide)

/-- Counterexample to claim C4 as stated: the manual override with status
`in_stock` on a product with counter 3 yields `last_stock_status =
in_stock` while the counter stays 3, so the counter is not reset to 0 the
instant the status becomes `in_stock`. -/
theorem claim4_counterexample :
    (set_status ⟨.out_of_stock, 3, none⟩ .in_stock).last_stock_status
      = .in_stock
    ∧ (set_status ⟨.out_of_stock, 3, none⟩
        .in_stock).consecutive_out_of_stock_checks = 3
    ∧ (3 : Nat) ≠ 0 := by decide

/-- Claim C7: for every product and every fetch or parse outcome, the
classifier returns exactly one of the three statuses and never raises (it
is a total function of its inputs); a failed fetch and a failed parse
both yield `unknown`. -/
theorem claim7_classifier_total :
    (∀ (product : Product) (content : Option (Option PageObservations)),
      check_stock_status product content = .in_stock
        ∨ check_stock_status product content = .out_of_stock
        ∨ check_stock_status product content = .unknown)
    ∧ (∀ product : Product, check_stock_status product none = .unknown)
    ∧ (∀ product : Product,
        check_stock_status product (some none) = .unknown) := by
  refine ⟨?_, fun _ => rfl, fun _ => rfl⟩
  intro product content
  cases h : check_stock_status product content with
  | in_stock => exact Or.inl rfl
  | out_of_stock => exact Or.inr (Or.inl rfl)
  | unknown => exact Or.inr (Or.inr rfl)

/-- Concrete instantiation of `claim7_classifier_total`: a failed fetch
yields `unknown`. -/
theorem claim7_classifier_total_witness :
    check_stock_status ⟨"Target", "x"⟩ none = .unknown :=
  claim7_classifier_total.2.1 ⟨"Target", "x"⟩

/-- Claim C5: under the Target scored-heuristic policy, any negative
phrase anywhere in the page text yields `out_of_stock` regardless of the
positive indicators; otherwise, with the four positive indicators each
contributing at most 1 (so the score is at most 4), a score of at least 2
yields `in_stock` and a score of 0 or 1 yields `out_of_stock`. -/
theorem claim5_target_scored_heuristic :
    (∀ page : TargetPage, target_negative page = true →
      check_target page = .out_of_stock)
    ∧ (∀ page : TargetPage, target_negative page = false →
        ((2 ≤ target_score page → check_target page = .in_stock)
          ∧ (target_score page ≤ 1 → check_target page = .out_of_stock)))
    ∧ (∀ page : TargetPage, target_score page ≤ 4) := by
  refine ⟨?_, ?_, ?_⟩
  · intro page h
    simp [check_target, h]
  · intro page h
    constructor
    · intro h2
      simp [check_target, h, h2]
    · intro h1
      have h2 : ¬ 2 ≤ target_score page := by omega
      simp [check_target, h, h2]
  · intro page
    unfold target_score
    split <;> split <;> split <;> split <;> omega

/-- Concrete instantiation of `claim5_target_scored_heuristic`: a page
reading sold out is classified `out_of_stock` even with price and
fulfillment elements present. -/
theorem claim5_target_scored_heuristic_witness :
    check_target ⟨"sold out", [], true, true⟩ = .out_of_stock :=
  claim5_target_scored_heuristic.1 ⟨"sold out", [], true, true⟩ (by decide)

/-- Claim C6: under the generic policy, a missing element yields
`unknown`; with an element present the result is `in_stock` exactly when
the lowered expected text occurs in the lowered element text or in the
lowered space-joined value of one of the attributes class, data-stock,
data-status, and otherwise the result is `out_of_stock`. -/
theorem claim6_generic_policy :
    (∀ expected : String, check_generic expected none = .unknown)
    ∧ (∀ (expected : String) (el : GenericElement),
        (check_generic expected (some el) = .in_stock ↔
          (containsSub (lowerStr el.text) (lowerStr expected) = true
            ∨ ∃ a ∈ generic_attr_names, ∃ vs,
                lookupKey el.attrs a = some vs
                ∧ containsSub (lowerStr (joinSpace vs))
                    (lowerStr expected) = true))
        ∧ (check_generic expected (some el) = .in_stock
            ∨ check_generic expected (some el) = .out_of_stock)) := by
  refine ⟨fun _ => rfl, ?_⟩
  intro expected el
  constructor
  · by_cases hA : containsSub (lowerStr el.text) (lowerStr expected) = true
    · have hval : check_generic expected (some el) = .in_stock := by
        simp [check_generic, hA]
      rw [hval]
      exact ⟨fun _ => Or.inl hA, fun _ => rfl⟩
    · have hA' : containsSub (lowerStr el.text) (lowerStr expected) = false := by
        simpa using hA
      by_cases hB : (generic_attr_names.any (fun a =>
          match lookupKey el.attrs a with
          | some vs =>
            containsSub (lowerStr (joinSpace vs)) (lowerStr expected)
          | none => false)) = true
      · have hval : check_generic expected (some el) = .in_stock := by
          simp [check_generic, hA', hB]
        rw [hval]
        constructor
        · intro _
          right
          obtain ⟨a, ha, hfa⟩ := List.any_eq_true.mp hB
          cases hv : lookupKey el.attrs a with
          | none => rw [hv] at hfa; simp at hfa
          | some vs =>
            rw [hv] at hfa
            exact ⟨a, ha, vs, hv, hfa⟩
        · intro _
          rfl
      · have hB' : (generic_attr_names.any (fun a =>
            match lookupKey el.attrs a with
            | some vs =>
              containsSub (lowerStr (joinSpace vs)) (lowerStr expected)
            | none => false)) = false := by
          simpa using hB
        have hval : check_generic expected (some el) = .out_of_stock := by
          simp [check_generic, hA', hB']
        rw [hval]
        constructor
        · intro hcontra
          exact absurd hcontra (by decide)
        · intro hor
          cases hor with
          | inl h => exact absurd h hA
          | inr h =>
            obtain ⟨a, ha, vs, hv, hc⟩ := h
            refine absurd (List.any_eq_true.mpr ⟨a, ha, ?_⟩) hB
            rw [hv]
            exact hc
  · by_cases hA : containsSub (lowerStr el.text) (lowerStr expected) = true
    · exact Or.inl (by simp [check_generic, hA])
    · have hA' : containsSub (lowerStr el.text) (lowerStr expected)
          = false := by
        simpa using hA
      by_cases hB : (generic_attr_names.any (fun a =>
          match lookupKey el.attrs a with
          | some vs =>
            containsSub (lowerStr (joinSpace vs)) (lowerStr expected)
          | none => false)) = true
      · exact Or.inl (by simp [check_generic, hA', hB])
      · have hB' : (generic_attr_names.any (fun a =>
            match lookupKey el.attrs a with
            | some vs =>
              containsSub (lowerStr (joinSpace vs)) (lowerStr expected)
            | none => false)) = false := by
          simpa using hB
        exact Or.inr (by simp [check_generic, hA', hB'])

/-- Concrete instantiation of `claim6_generic_policy`: a missing stock
element yields `unknown`. -/
theorem claim6_generic_policy_witness :
    check_generic "in stock" none = .unknown :=
  claim6_generic_policy.1 "in stock"

/-- Claim C2 (amended): the dedup gate sends exactly when the subscriber
has no recorded timestamp entry for the product, or the product document
carries a lastRestockAt value, persisted before this cycle update, that
is present and strictly newer than the recorded entry; the in-cycle
attempted deliveries are exactly the resolved subscribers passing that
gate against the pre-cycle lastRestockAt; and re-observing an
already-notified restock (previous status now `in_stock`) attempts no
delivery because the event does not re-fire. -/
theorem claim2_dedup_gate_amended :
    (∀ lnt lrt : Option Nat, should_notify lnt lrt = true ↔
        (lnt = none ∨ ∃ t r : Nat, lnt = some t ∧ lrt = some r ∧ t < r))
    ∧ (∀ (p : ProductState) (pid : String) (cur : StockStatus) (now : Nat)
        (subs : List (String × Subscription))
        (deliver : String → DeliveryOutcome) (dtime : String → Nat),
        (monitor_product_cycle p pid cur now subs deliver dtime).attempted
          = (monitor_product_cycle p pid cur now subs deliver
              dtime).resolved.filter
                (gate_pass subs pid p.last_restock_time))
    ∧ (∀ (p : ProductState) (pid : String) (cur : StockStatus) (now : Nat)
        (subs : List (String × Subscription))
        (deliver : String → DeliveryOutcome) (dtime : String → Nat),
        p.last_stock_status = .in_stock →
        (monitor_product_cycle p pid cur now subs deliver dtime).attempted
          = []) := by
  refine ⟨?_, monitor_cycle_attempted, ?_⟩
  · intro lnt lrt
    cases lnt with
    | none => simp [should_notify]
    | some t =>
      cases lrt with
      | none => simp [should_notify]
      | some r => simp [should_notify]
  · intro p pid cur now subs deliver dtime h
    have hf : (monitor_step p cur now).2 = false := by
      simp [monitor_step, restock_fired, h]
    unfold monitor_product_cycle
    simp [hf]

/-- Concrete instantiation of `claim2_dedup_gate_amended`: with the
previous status `in_stock` no delivery is attempted. -/
theorem claim2_dedup_gate_amended_witness :
    (monitor_product_cycle ⟨.in_stock, 0, none⟩ "p" .in_stock 1 []
      (fun _ => .delivered) (fun _ => 2)).attempted = [] :=
  claim2_dedup_gate_amended.2.2 ⟨.in_stock, 0, none⟩ "p" .in_stock 1 []
    (fun _ => .delivered) (fun _ => 2) rfl

/-- Counterexample to claim C2 as stated: a restock event freshly fires
(`fired = true`, the event lastRestockAt becomes 10), the subscriber s is
resolved, and the recorded entry 5 is strictly older than 10, yet no
delivery is attempted, because the gate compares against the pre-cycle
`last_restock_time`, which is still null here.  So a newly fired restock
does not pass the gate for every resolved subscriber with an older
recorded entry. -/
theorem claim2_counterexample :
    (monitor_product_cycle ⟨.out_of_stock, 2, none⟩ "p" .in_stock 10
      [("s", ⟨["p"], .specific_products, [("p", 5)]⟩)]
      (fun _ => .delivered) (fun _ => 11)).fired = true
    ∧ (monitor_product_cycle ⟨.out_of_stock, 2, none⟩ "p" .in_stock 10
      [("s", ⟨["p"], .specific_products, [("p", 5)]⟩)]
      (fun _ => .delivered) (fun _ => 11)).resolved = ["s"]
    ∧ (monitor_product_cycle ⟨.out_of_stock, 2, none⟩ "p" .in_stock 10
      [("s", ⟨["p"], .specific_products, [("p", 5)]⟩)]
      (fun _ => .delivered) (fun _ => 11)).product.last_restock_time
        = some 10
    ∧ (5 : Nat) < 10
    ∧ (monitor_product_cycle ⟨.out_of_stock, 2, none⟩ "p" .in_stock 10
      [("s", ⟨["p"], .specific_products, [("p", 5)]⟩)]
      (fun _ => .delivered) (fun _ => 11)).attempted = [] := by decide

/-- Claim C3 (amended): on confirmed delivery the subscriber entry
`last_notified_timestamps.<pid>` is set to the server timestamp of the
delivery-time write, which is a different write from the cycle-end
product update that assigns the event lastRestockAt, not to the event
lastRestockAt value itself. -/
theorem claim3_delivery_timestamp_amended :
    (∀ (pid : String) (t : Nat) (sub : Subscription),
      (send_restock_notification pid t .delivered
            sub).1.last_notified_timestamps
          = setKey sub.last_notified_timestamps pid t
        ∧ lookupKey (send_restock_notification pid t .delivered
            sub).1.last_notified_timestamps pid = some t)
    ∧ (∀ (pid : String) (lrt : Option Nat)
        (deliver : String → DeliveryOutcome) (dtime : String → Nat)
        (acc : FanoutAcc) (sid : String) (sub : Subscription),
        lookupKey acc.subs sid = some sub →
        should_notify (lookupKey sub.last_notified_timestamps pid) lrt
          = true →
        deliver sid = .delivered →
        lookupKey (process_subscriber pid lrt deliver dtime acc sid).subs sid
          = some { sub with
              last_notified_timestamps :=
                setKey sub.last_notified_timestamps pid (dtime sid) }) := by
  constructor
  · intro pid t sub
    exact ⟨rfl, lookupKey_setKey_self _ _ _⟩
  · intro pid lrt deliver dtime acc sid sub hl hg hd
    have hproc : process_subscriber pid lrt deliver dtime acc sid
        = { subs := setKey acc.subs sid
              (send_restock_notification pid (dtime sid) (deliver sid) sub).1,
            attempted := acc.attempted ++ [sid],
            notified :=
              if (send_restock_notification pid (dtime sid) (deliver sid)
                  sub).2
              then acc.notified ++ [sid] else acc.notified } := by
      unfold process_subscriber
      rw [hl]
      simp [hg]
    rw [hproc, hd]
    rw [lookupKey_setKey_self]
    rfl

/-- Concrete instantiation of `claim3_delivery_timestamp_amended`: a
confirmed delivery at write time 7 records 7 for the product. -/
theorem claim3_delivery_timestamp_amended_witness :
    lookupKey (process_subscriber "p" none (fun _ => .delivered)
        (fun _ => 7) ⟨[("s", ⟨["p"], .specific_products, []⟩)], [], []⟩
        "s").subs "s"
      = some ⟨["p"], .specific_products, [("p", 7)]⟩ :=
  claim3_delivery_timestamp_amended.2 "p" none (fun _ => .delivered)
    (fun _ => 7) ⟨[("s", ⟨["p"], .specific_products, []⟩)], [], []⟩ "s"
    ⟨["p"], .specific_products, []⟩ (by decide) (by decide) rfl

/-- Counterexample to claim C3 as stated: a restock fires with event
lastRestockAt 10, the delivery write commits at server time 15, and the
recorded `last_notified_timestamps` entry is 15, not the event value
10. -/
theorem claim3_counterexample :
    (monitor_product_cycle ⟨.out_of_stock, 2, none⟩ "p" .in_stock 10
      [("s", ⟨["p"], .specific_products, []⟩)]
      (fun _ => .delivered) (fun _ => 15)).product.last_restock_time
        = some 10
    ∧ (monitor_product_cycle ⟨.out_of_stock, 2, none⟩ "p" .in_stock 10
      [("s", ⟨["p"], .specific_products, []⟩)]
      (fun _ => .delivered) (fun _ => 15)).subs
        = [("s", ⟨["p"], .specific_products, [("p", 15)]⟩)]
    ∧ some (15 : Nat) ≠ some (10 : Nat) := by decide

/-- Claim C9: a failed delivery (target missing, permission denied,
platform error, or any other exception) leaves the subscriber document
and the confirmed list unchanged, the dedup timestamp being written only
on confirmed delivery; and one subscriber failure neither changes which
deliveries are attempted (the attempted list is independent of the
delivery outcomes) nor prevents the cycle from persisting the product
fields. -/
theorem claim9_delivery_failure_isolated :
    (∀ (pid : String) (t : Nat) (o : DeliveryOutcome) (sub : Subscription),
      o ≠ .delivered →
      send_restock_notification pid t o sub = (sub, false))
    ∧ (∀ (pid : String) (lrt : Option Nat)
        (deliver : String → DeliveryOutcome) (dtime : String → Nat)
        (acc : FanoutAcc) (sid : String),
        deliver sid ≠ .delivered →
        (process_subscriber pid lrt deliver dtime acc sid).subs = acc.subs
        ∧ (process_subscriber pid lrt deliver dtime acc sid).notified
            = acc.notified)
    ∧ (∀ (p : ProductState) (pid : String) (cur : StockStatus) (now : Nat)
        (subs : List (String × Subscription))
        (d1 d2 : String → DeliveryOutcome) (t1 t2 : String → Nat),
        (monitor_product_cycle p pid cur now subs d1 t1).attempted
          = (monitor_product_cycle p pid cur now subs d2 t2).attempted)
    ∧ (∀ (p : ProductState) (pid : String) (cur : StockStatus) (now : Nat)
        (subs : List (String × Subscription))
        (d1 d2 : String → DeliveryOutcome) (t1 t2 : String → Nat),
        (monitor_product_cycle p pid cur now subs d1 t1).product
          = (monitor_product_cycle p pid cur now subs d2 t2).product) := by
  have hsend : ∀ (pid : String) (t : Nat) (o : DeliveryOutcome)
      (sub : Subscription), o ≠ .delivered →
      send_restock_notification pid t o sub = (sub, false) := by
    intro pid t o sub h
    cases o with
    | delivered => exact absurd rfl h
    | target_missing => rfl
    | permission_denied => rfl
    | platform_error => rfl
    | other_error => rfl
  refine ⟨hsend, ?_, ?_, ?_⟩
  · intro pid lrt deliver dtime acc sid h
    unfold process_subscriber
    cases hl : lookupKey acc.subs sid with
    | none => exact ⟨rfl, rfl⟩
    | some sub =>
      by_cases hg : should_notify
          (lookupKey sub.last_notified_timestamps pid) lrt = true
      · simp only [hg, if_true]
        rw [hsend pid (dtime sid) (deliver sid) sub h]
        exact ⟨setKey_self acc.subs sid sub hl, rfl⟩
      · simp [hg]
  · intro p pid cur now subs d1 d2 t1 t2
    rw [monitor_cycle_attempted, monitor_cycle_attempted,
      monitor_cycle_resolved, monitor_cycle_resolved]
  · intro p pid cur now subs d1 d2 t1 t2
    rw [monitor_cycle_product_eq, monitor_cycle_product_eq]

/-- Concrete instantiation of `claim9_delivery_failure_isolated`: a
permission-denied delivery leaves the subscription documents exactly as
they were. -/
theorem claim9_delivery_failure_isolated_witness :
    (process_subscriber "p" (some 1) (fun _ => .permission_denied)
        (fun _ => 9) ⟨[("s", ⟨["p"], .specific_products, []⟩)], [], []⟩
        "s").subs
      = [("s", ⟨["p"], .specific_products, []⟩)] :=
  (claim9_delivery_failure_isolated.2.1 "p" (some 1)
    (fun _ => .permission_denied) (fun _ => 9)
    ⟨[("s", ⟨["p"], .specific_products, []⟩)], [], []⟩ "s" (by decide)).1

/-- Claim C8 (amended): removing a product cascades over exactly the
subscriptions whose subscribed-product list contains the id (the
array-membership query): for those the id is removed from the list and
from the notified-timestamp map, and the preference becomes
`all_products` exactly when the list becomes empty; a subscription not
holding the id in its list is left entirely unchanged, keeping any
notified-timestamp entry it has for the removed product. -/
theorem claim8_remove_product_amended :
    (∀ (sub : Subscription) (pid : String),
      pid ∈ sub.subscribed_product_ids →
      (pid ∉ (remove_product_from_subscription pid
            sub).subscribed_product_ids
        ∧ lookupKey (remove_product_from_subscription pid
            sub).last_notified_timestamps pid = none
        ∧ ((remove_product_from_subscription pid
              sub).notification_preference = .all_products
            ↔ (sub.subscribed_product_ids.filter
                (fun x => x != pid)).isEmpty = true)))
    ∧ (∀ (sub : Subscription) (pid : String),
        pid ∉ sub.subscribed_product_ids →
        remove_product_from_subscription pid sub = sub)
    ∧ (∀ (subs : List (String × Subscription)) (pid sid : String)
        (sub : Subscription), (sid, sub) ∈ subs →
        (sid, remove_product_from_subscription pid sub)
          ∈ remove_product subs pid) := by
  refine ⟨?_, ?_, ?_⟩
  · intro sub pid h
    refine ⟨?_, ?_, ?_⟩
    · simp [remove_product_from_subscription, h, List.mem_filter]
    · by_cases hs : (lookupKey sub.last_notified_timestamps pid).isSome
          = true
      · simp [remove_product_from_subscription, h, hs,
          lookupKey_removeKey_self]
      · have hnone : lookupKey sub.last_notified_timestamps pid = none := by
          cases hv : lookupKey sub.last_notified_timestamps pid with
          | none => rfl
          | some w => rw [hv] at hs; simp at hs
        simp [remove_product_from_subscription, h, hs, hnone]
    · by_cases he : (sub.subscribed_product_ids.filter
          (fun x => x != pid)).isEmpty = true
      · simp [remove_product_from_subscription, h, he]
      · simp [remove_product_from_subscription, h, he]
  · intro sub pid h
    simp [remove_product_from_subscription, h]
  · intro subs pid sid sub hm
    exact List.mem_map.mpr ⟨(sid, sub), hm, rfl⟩

/-- Concrete instantiation of `claim8_remove_product_amended`: a matched
subscription loses its notified-timestamp entry for the product. -/
theorem claim8_remove_product_amended_witness :
    lookupKey (remove_product_from_subscription "p"
      ⟨["p"], .specific_products, [("p", 4)]⟩).last_notified_timestamps
      "p" = none :=
  (claim8_remove_product_amended.1 ⟨["p"], .specific_products, [("p", 4)]⟩
    "p" (by decide)).2.1

/-- Counterexample to claim C8 as stated: a subscription with an
all-products preference, an empty subscribed list and a recorded
notified-timestamp entry for product p is not matched by the
array-membership query, so removing p leaves the subscription, and in
particular its notified-timestamp entry for p, unchanged.  Removal does
not purge the id from the notified-timestamp map of every
subscription. -/
theorem claim8_counterexample :
    remove_product [("s", ⟨[], .all_products, [("p", 5)]⟩)] "p"
        = [("s", ⟨[], .all_products, [("p", 5)]⟩)]
    ∧ lookupKey (Subscription.last_notified_timestamps
        ⟨[], .all_products, [("p", 5)]⟩) "p" = some 5 := by decide

/-- Claim C10: unsubscribing from the last remaining subscribed product
empties the list and flips the preference to `all_products`, after which
the subscriber is resolved for every product id; while the no-argument
unsubscribe empties the list and sets the preference to
`specific_products`, after which the subscriber is resolved for no
product id. -/
theorem claim10_unsubscribe_last_product :
    (∀ (sub : Subscription) (pid : String),
      sub.subscribed_product_ids = [pid] →
      ((unsubscribe_product sub pid).subscribed_product_ids = []
        ∧ (unsubscribe_product sub pid).notification_preference
            = .all_products))
    ∧ (∀ (subs : List (String × Subscription)) (sid : String)
        (sub : Subscription) (pid : String),
        (sid, sub) ∈ subs →
        sub.notification_preference = .all_products →
        sid ∈ resolve_subscribers subs pid)
    ∧ (∀ sub : Subscription,
        (unsubscribe_all sub).subscribed_product_ids = []
        ∧ (unsubscribe_all sub).notification_preference
            = .specific_products)
    ∧ (∀ (subs : List (String × Subscription)) (sid pid : String),
        (∀ sub : Subscription, (sid, sub) ∈ subs →
          (sub.subscribed_product_ids = []
            ∧ sub.notification_preference = .specific_products)) →
        sid ∉ resolve_subscribers subs pid) := by
  refine ⟨?_, ?_, fun sub => ⟨rfl, rfl⟩, ?_⟩
  · intro sub pid h
    have hmem : pid ∈ sub.subscribed_product_ids := by
      rw [h]; exact List.mem_singleton_self pid
    have herase : sub.subscribed_product_ids.erase pid = [] := by
      rw [h, List.erase_cons_head]
    simp [unsubscribe_product, hmem, herase]
  · intro subs sid sub pid hm hp
    exact (mem_resolve_subscribers subs pid sid).mpr ⟨sub, hm, Or.inr hp⟩
  · intro subs sid pid hall hmem
    obtain ⟨sub, hm, hcond⟩ := (mem_resolve_subscribers subs pid sid).mp hmem
    obtain ⟨hempty, hpref⟩ := hall sub hm
    cases hcond with
    | inl h =>
      rw [hempty] at h
      exact absurd h (List.not_mem_nil pid)
    | inr h =>
      rw [hpref] at h
      exact absurd h (by decide)

/-- Concrete instantiation of `claim10_unsubscribe_last_product`:
removing the only subscribed product flips the preference to
`all_products`. -/
theorem claim10_unsubscribe_last_product_witness :
    (unsubscribe_product ⟨["p"], .specific_products, []⟩
      "p").notification_preference = .all_products :=
  (claim10_unsubscribe_last_product.1 ⟨["p"], .specific_products, []⟩
    "p" rfl).2
